import Mathlib

/-!
# HackYourCoffeemachine templates: connectivity supervision

A shallow embedding of the broker session supervisor (`src/mqtt_handler.cpp`,
`src/ESP_32/src/mqtt/mqtt_handler.cpp`), the network link supervisor
(`src/ESP_32/src/wifi/wifi_handler.cpp`) and the telemetry loop
(`src/iot-coffeemaker-main.cpp`).

Conventions of the embedding.

* The PubSubClient / WiFi driver objects are external. Every call the code makes
  on them is recorded in a trace (`ClientCall`, `DriverCall`); every value they
  hand back (`connected()`, the result of `connect`, `status()`, ...) is an input.
* Wall time is a natural number `clock` of milliseconds; `millis()` is
  `clock % 2 ^ 32`, and unsigned differences are taken modulo `2 ^ 32`.
* A nullable `const char*` is an `Option String`.
* Logging macros have no effect on the modelled state and are left out.
-/

namespace CoffeeMachine

/-! ## Machine arithmetic and shared types -/

/-- Number of values of `uint32_t` / `unsigned long` on the target. -/
def U32 : Nat := 2 ^ 32

/-- The value `millis()` returns at wall time `clock`. -/
def millis (clock : Nat) : Nat := clock % U32

/-- Unsigned 32-bit subtraction `a - b`. -/
def sub32 (a b : Nat) : Nat := (a % U32 + U32 - b % U32) % U32

/-- An IPv4 address, four octets. -/
structure IPAddress where
  o1 : Nat
  o2 : Nat
  o3 : Nat
  o4 : Nat
deriving DecidableEq, Repr

/-- Rendering `IPAddress::toString()`, dotted decimal. -/
def IPAddress.toString (ip : IPAddress) : String :=
  Nat.repr ip.o1 ++ "." ++ Nat.repr ip.o2 ++ "." ++ Nat.repr ip.o3 ++ "." ++ Nat.repr ip.o4

/-- Calls made on the `PubSubClient` object, in program order. -/
inductive ClientCall where
  | setServerIp (ip : IPAddress) (port : Nat)
  | setServerHost (host : Option String) (port : Nat)
  | setCallback
  | setKeepAlive (seconds : Nat)
  | setSocketTimeout (seconds : Nat)
  | connect (clientName : String)
  | connectAuth (clientName user pass : String)
  | publish (topic payload : String) (retained : Bool)
  | subscribe (topic : Option String)
  | loop
deriving DecidableEq, Repr

/-- Is this call a connect attempt (with or without credentials)? -/
def ClientCall.isConnect : ClientCall → Bool
  | .connect _ => true
  | .connectAuth _ _ _ => true
  | _ => false

/-- Is this call a publish? -/
def ClientCall.isPublish : ClientCall → Bool
  | .publish _ _ _ => true
  | _ => false

/-- Is this call a subscribe? -/
def ClientCall.isSubscribe : ClientCall → Bool
  | .subscribe _ => true
  | _ => false

/-- The liveness announcement `mqttClient.publish("esp_state", "i am alive")`;
the two-argument `publish` of the client is not retained. -/
def alive : ClientCall := .publish "esp_state" "i am alive" false

/-- One blocking connect attempt as the environment answers it: the result of
`mqttClient.connect` and the milliseconds the call took. -/
structure Attempt where
  ok : Bool
  took : Nat
deriving DecidableEq, Repr

/-! ## `src/mqtt_handler.cpp` -/

namespace Root

/-- Cache discriminator `enum class Mode`. -/
inductive Mode where
  | NONE
  | BY_IP
  | BY_HOST
deriving DecidableEq, Repr

/-- Data members of `MqttHandler` (`src/mqtt_handler.h`), with their in-class
initialisers as defaults. -/
structure MqttHandler where
  mode : Mode := .NONE
  brokerIp : IPAddress := ⟨0, 0, 0, 0⟩
  brokerHost : String := ""
  brokerPort : Nat := 1883
  user : String := ""
  pass : String := ""
  useAuth : Bool := false
  retryWaitMs : Nat := 2000
  lastReconnectMs : Nat := 0
  clientName : String := "MyEspClient"
deriving DecidableEq, Repr

namespace MqttHandler

/-- Setter `setRetryWait`. -/
def setRetryWait (h : MqttHandler) (ms : Nat) : MqttHandler :=
  { h with retryWaitMs := ms % U32 }

/-- The `while (millis() - start < timeoutMillis)` loop of `connect` by IP
(lines 15-21). `none` when the environment's answers run out before the loop
ends. -/
def connectIpLoop (clientName : String) (start timeoutMillis : Nat) :
    Nat → List Attempt → Option (Bool × List ClientCall)
  | clock, env =>
    if sub32 (millis clock) start < timeoutMillis then
      match env with
      | [] => none
      | a :: rest =>
        if a.ok then some (true, [.connect clientName, alive])
        else
          match connectIpLoop clientName start timeoutMillis (clock + a.took + 100) rest with
          | none => none
          | some (r, calls) => some (r, .connect clientName :: calls)
    else some (false, [])

/-- Overload `connect(const IPAddress&, uint16_t, uint32_t)`. Returns the result, the handler
afterwards and the client calls made. -/
def connect (h : MqttHandler) (mqttBroker : IPAddress) (port timeoutMillis : Nat)
    (clock : Nat) (env : List Attempt) : Option (Bool × MqttHandler × List ClientCall) :=
  let h1 : MqttHandler :=
    { h with mode := .BY_IP, brokerIp := mqttBroker, brokerPort := port,
             useAuth := false, user := "", pass := "" }
  let start := millis clock
  match connectIpLoop h1.clientName start timeoutMillis clock env with
  | none => none
  | some (r, calls) => some (r, h1, .setServerIp h1.brokerIp h1.brokerPort :: calls)

/-- The connect call of the by-host paths: with credentials when `useAuth`. -/
def hostConnectCall (h : MqttHandler) : ClientCall :=
  if h.useAuth then .connectAuth h.clientName h.user h.pass else .connect h.clientName

/-- The `while` loop of `connect` by host (lines 39-52). -/
def connectHostLoop (h : MqttHandler) (start timeoutMillis : Nat) :
    Nat → List Attempt → Option (Bool × List ClientCall)
  | clock, env =>
    if sub32 (millis clock) start < timeoutMillis then
      match env with
      | [] => none
      | a :: rest =>
        if a.ok then some (true, [hostConnectCall h, alive])
        else
          match connectHostLoop h start timeoutMillis (clock + a.took + 100) rest with
          | none => none
          | some (r, calls) => some (r, hostConnectCall h :: calls)
    else some (false, [])

/-- Overload `connect(const char* host, uint16_t, const char* username,
const char* password, uint32_t)`. -/
def connectHost (h : MqttHandler) (mqttBrokerHost : Option String) (port : Nat)
    (username password : Option String) (timeoutMillis : Nat)
    (clock : Nat) (env : List Attempt) : Option (Bool × MqttHandler × List ClientCall) :=
  let useAuth := username.isSome && password.isSome
  let h1 : MqttHandler :=
    { h with mode := .BY_HOST, brokerHost := mqttBrokerHost.getD "", brokerPort := port,
             useAuth := useAuth,
             user := if useAuth then username.getD "" else "",
             pass := if useAuth then password.getD "" else "" }
  let start := millis clock
  match connectHostLoop h1 start timeoutMillis clock env with
  | none => none
  | some (r, calls) => some (r, h1, .setServerHost (some h1.brokerHost) h1.brokerPort :: calls)

/-- Private `tryConnectOnce`; `connectOk` is what `mqttClient.connect` answers if it is
called. -/
def tryConnectOnce (h : MqttHandler) (connectOk : Bool) : Bool × List ClientCall :=
  match h.mode with
  | .NONE => (false, [])
  | .BY_IP =>
    if connectOk then
      (true, [.setServerIp h.brokerIp h.brokerPort, .connect h.clientName, alive])
    else (false, [.setServerIp h.brokerIp h.brokerPort, .connect h.clientName])
  | .BY_HOST =>
    if h.useAuth then
      if connectOk then
        (true, [.setServerHost (some h.brokerHost) h.brokerPort,
                .connectAuth h.clientName h.user h.pass, alive])
      else
        (false, [.setServerHost (some h.brokerHost) h.brokerPort,
                 .connectAuth h.clientName h.user h.pass])
    else
      if connectOk then
        (true, [.setServerHost (some h.brokerHost) h.brokerPort, .connect h.clientName, alive])
      else (false, [.setServerHost (some h.brokerHost) h.brokerPort, .connect h.clientName])

/-- What the environment answers during one `update()`: the wall time, the
client's `connected()` and the result of `connect` should it be called. -/
structure UpdateEnv where
  clock : Nat
  connected : Bool
  connectOk : Bool
deriving DecidableEq, Repr

/-- Method `update()` (lines 56-68). -/
def update (h : MqttHandler) (e : UpdateEnv) : MqttHandler × List ClientCall :=
  if e.connected then (h, [.loop])
  else
    let now := millis e.clock
    if sub32 now h.lastReconnectMs < h.retryWaitMs then (h, [.loop])
    else
      let h1 : MqttHandler := { h with lastReconnectMs := now }
      (h1, .loop :: (tryConnectOnce h1 e.connectOk).2)

/-- Does this `update()` pass the throttle, i.e. reach `tryConnectOnce`? -/
def notThrottled (h : MqttHandler) (e : UpdateEnv) : Bool :=
  !(sub32 (millis e.clock) h.lastReconnectMs < h.retryWaitMs)

/-- Wall times of the `update()` calls, out of a sequence of calls, that issued a
client connect attempt. -/
def attemptTimes (h : MqttHandler) : List UpdateEnv → List Nat
  | [] => []
  | e :: es =>
    if (update h e).2.any ClientCall.isConnect then
      e.clock :: attemptTimes (update h e).1 es
    else attemptTimes (update h e).1 es

/-- The scenario of 100 calls 10 ms apart from wall time `t0`. -/
def spacedCalls (t0 : Nat) (connected connectOk : Nat → Bool) : List UpdateEnv :=
  (List.range 100).map fun k =>
    { clock := t0 + 10 * k, connected := connected k, connectOk := connectOk k }

/-- Overload `publish(const char*, const JsonDocument&, bool)`; `serializeJson` and the
client's `publish` are external and passed in. -/
def publishJson {Doc : Type} (serializeJson : Doc → String)
    (clientConnected : Bool) (clientPublish : String → String → Bool → Bool)
    (topic : String) (jsonMsg : Doc) (retained : Bool) : Bool × List ClientCall :=
  if !clientConnected then (false, [])
  else
    let payload := serializeJson jsonMsg
    (clientPublish topic payload retained, [.publish topic payload retained])

/-- Overload `publish(const char*, const char*, bool)`. -/
def publish (clientConnected : Bool) (clientPublish : String → String → Bool → Bool)
    (topic payload : String) (retained : Bool) : Bool × List ClientCall :=
  if !clientConnected then (false, [])
  else (clientPublish topic payload retained, [.publish topic payload retained])

/-- The client connect attempts of a sequence of `update()` calls: one entry for
every `connect` call made on the client, holding the wall time of the `update()`
that made it. -/
def connectAttemptTimes (h : MqttHandler) : List UpdateEnv → List Nat
  | [] => []
  | e :: es =>
    ((update h e).2.filter ClientCall.isConnect).map (fun _ => e.clock) ++
      connectAttemptTimes (update h e).1 es

/-- The client calls of a sequence of `update()` calls, in order. -/
def updatesCalls (h : MqttHandler) : List UpdateEnv → List ClientCall
  | [] => []
  | e :: es => (update h e).2 ++ updatesCalls (update h e).1 es

end MqttHandler

end Root

/-! ## `src/ESP_32/src/mqtt/mqtt_handler.cpp` -/

/-- Modelled from the spec: the stopwatch value object of section 4.1 (`Stopwatch32MS`
of the `arduino_stopwatch` library, not part of the sources): `restart()` records
the current `millis()`, and the elapsed time is the wrap-safe unsigned
difference `now - start`. -/
structure Stopwatch32MS where
  start : Nat
deriving DecidableEq, Repr

namespace Stopwatch32MS

/-- Modelled from the spec: `restart()` at wall time `clock`. -/
def restart (_w : Stopwatch32MS) (clock : Nat) : Stopwatch32MS := ⟨millis clock⟩

/-- Modelled from the spec: `getTimeSinceStart()` at wall time `clock`. -/
def getTimeSinceStart (w : Stopwatch32MS) (clock : Nat) : Nat := sub32 (millis clock) w.start

end Stopwatch32MS

namespace ESP_32

/-- Data members of the ESP_32 `MqttHandler` that `mqtt_handler.cpp` reads and
writes (its header is not part of the sources, so no initial values are fixed
here). -/
structure MqttHandler where
  clientName : String
  last_host_ : String
  last_port_ : Nat
  last_use_auth_ : Bool
  last_user_ : String
  last_pass_ : String
  sub_topic : String
  lastConnectionWatch : Stopwatch32MS
deriving DecidableEq, Repr

namespace MqttHandler

/-- The connect call `last_use_auth_ ? connect(name, user, pass) : connect(name)`. -/
def connectCall (h : MqttHandler) : ClientCall :=
  if h.last_use_auth_ then .connectAuth h.clientName h.last_user_ h.last_pass_
  else .connect h.clientName

/-- The `for(;;)` loop of `connect` by IP (lines 21-30): attempt, then test the
local stopwatch, then `delay(50)`. The Boolean is `true` when the loop was left
by `break`, `false` when by `return false`. -/
def connectIpLoop (clientName : String) (watch : Stopwatch32MS) (timeoutMillis : Nat) :
    Nat → List Attempt → Option (Bool × List ClientCall)
  | _, [] => none
  | clock, a :: rest =>
    if a.ok then some (true, [.connect clientName])
    else if timeoutMillis ≤ watch.getTimeSinceStart (clock + a.took) then
      some (false, [.connect clientName])
    else
      match connectIpLoop clientName watch timeoutMillis (clock + a.took + 50) rest with
      | none => none
      | some (r, calls) => some (r, .connect clientName :: calls)

/-- Overload `connect(IPAddress, u16_t, MQTT_CALLBACK_SIGNATURE, u32_t)` (lines 8-43). -/
def connect (h : MqttHandler) (mqttBroker : IPAddress) (port timeoutMillis : Nat)
    (clock : Nat) (env : List Attempt) : Option (Bool × MqttHandler × List ClientCall) :=
  let pre : List ClientCall :=
    [.setServerIp mqttBroker port, .setCallback, .setKeepAlive 30, .setSocketTimeout 3]
  let ip := mqttBroker.toString
  let watch : Stopwatch32MS := Stopwatch32MS.restart ⟨0⟩ clock
  match connectIpLoop h.clientName watch timeoutMillis clock env with
  | none => none
  | some (false, calls) => some (false, h, pre ++ calls)
  | some (true, calls) =>
    let h1 : MqttHandler :=
      { h with last_host_ := ip, last_port_ := port, last_use_auth_ := false,
               last_user_ := "", last_pass_ := "" }
    some (true, h1, pre ++ calls ++ [alive])

/-- The `for(;;)` loop of `connect` by host (lines 57-67). -/
def connectHostLoop (h : MqttHandler) (watch : Stopwatch32MS) (timeoutMillis : Nat) :
    Nat → List Attempt → Option (Bool × List ClientCall)
  | _, [] => none
  | clock, a :: rest =>
    if a.ok then some (true, [connectCall h])
    else if timeoutMillis ≤ watch.getTimeSinceStart (clock + a.took) then
      some (false, [connectCall h])
    else
      match connectHostLoop h watch timeoutMillis (clock + a.took + 50) rest with
      | none => none
      | some (r, calls) => some (r, connectCall h :: calls)

/-- Overload `connect(const char* host, u16_t, const char* username, const char* password,
u32_t)` (lines 44-71). Assigning a null `const char*` to a `String` leaves it empty. -/
def connectHost (h : MqttHandler) (host : Option String) (port : Nat)
    (username password : Option String) (timeoutMillis : Nat)
    (clock : Nat) (env : List Attempt) : Option (Bool × MqttHandler × List ClientCall) :=
  let useAuth := username.isSome && password.isSome
  let h1 : MqttHandler :=
    { h with last_host_ := host.getD "", last_port_ := port, last_use_auth_ := useAuth,
             last_user_ := if useAuth then username.getD "" else "",
             last_pass_ := if useAuth then password.getD "" else "" }
  let watch : Stopwatch32MS := Stopwatch32MS.restart ⟨0⟩ clock
  match connectHostLoop h1 watch timeoutMillis clock env with
  | none => none
  | some (false, calls) => some (false, h1, .setServerHost host port :: calls)
  | some (true, calls) => some (true, h1, .setServerHost host port :: calls ++ [alive])

/-- Overload `connect(const char* host, u16_t, MQTT_CALLBACK_SIGNATURE, const char*,
const char*, u32_t)` (lines 73-78). -/
def connectHostCallback (h : MqttHandler) (host : Option String) (port : Nat)
    (username password : Option String) (timeoutMillis : Nat)
    (clock : Nat) (env : List Attempt) : Option (Bool × MqttHandler × List ClientCall) :=
  match connectHost h host port username password timeoutMillis clock env with
  | none => none
  | some (r, h1, calls) => some (r, h1, .setCallback :: calls)

/-- What the environment answers during one `update()`: the wall time, the
client's `connected()`, the result of `connect` should it be called and the
milliseconds that call took. -/
structure UpdateEnv where
  clock : Nat
  connected : Bool
  connectOk : Bool
  took : Nat
deriving DecidableEq, Repr

/-- Method `update()` (lines 81-100). `DEFAULT_RETRY_WAIT_MILLIS` is a constant of the
header, which is not part of the sources; it is a parameter. -/
def update (h : MqttHandler) (DEFAULT_RETRY_WAIT_MILLIS : Nat) (e : UpdateEnv) :
    MqttHandler × List ClientCall :=
  if !e.connected &&
      decide (DEFAULT_RETRY_WAIT_MILLIS ≤ h.lastConnectionWatch.getTimeSinceStart e.clock) then
    let attempt : Bool × List ClientCall :=
      if !(h.last_host_ == "") && decide (0 < h.last_port_) then
        (e.connectOk, [.setServerHost (some h.last_host_) h.last_port_, connectCall h])
      else (false, [])
    if !attempt.1 then
      ({ h with lastConnectionWatch := h.lastConnectionWatch.restart (e.clock + e.took) },
        attempt.2)
    else
      (h, attempt.2 ++ [alive] ++
        (if h.sub_topic != "" then [.subscribe (some h.sub_topic)] else []) ++ [.loop])
  else (h, [.loop])

/-- Method `publish(const char* topic, JsonDocument jsonMsg)` (lines 101-105);
`serializeJson` and the client's answer are external. -/
def publish {Doc : Type} (serializeJson : Doc → String) (clientPublish : Bool)
    (topic : String) (jsonMsg : Doc) : Bool × List ClientCall :=
  (clientPublish, [.publish topic (serializeJson jsonMsg) false])

/-- Method `subscribe(const char* topic)` (lines 106-109); `clientSubscribe` is what the
client's `subscribe` answers. `String(topic)` of a null pointer is empty. -/
def subscribe (h : MqttHandler) (topic : Option String) (clientSubscribe : Bool) :
    Bool × MqttHandler × List ClientCall :=
  (clientSubscribe, { h with sub_topic := topic.getD "" }, [.subscribe topic])

end MqttHandler

/-! ## `src/ESP_32/src/wifi/wifi_handler.cpp` -/

namespace WifiHandler

/-- Configuration record `struct WifiConfig` (`src/ESP_32/src/wifi/wifi_handler.h`), with its
default member initialisers; `tx_power_dbm` is an `int8_t`, `channel` an `int`. -/
structure WifiConfig where
  ssid : Option String
  password : Option String
  use_static_ip : Bool := true
  local_ip : IPAddress := ⟨192, 168, 178, 50⟩
  gateway : IPAddress := ⟨192, 168, 178, 1⟩
  subnet : IPAddress := ⟨255, 255, 255, 0⟩
  dns1 : IPAddress := ⟨8, 8, 8, 8⟩
  dns2 : IPAddress := ⟨1, 1, 1, 1⟩
  tx_power_dbm : Int := 8
  channel : Int := 1
  scan_for_channel : Bool := false
deriving DecidableEq, Repr

/-- Result type `enum class ConnectResult`. -/
inductive ConnectResult where
  | Connected
  | Timeout
  | FailedStart
deriving DecidableEq, Repr

/-- The members of the driver's `wifi_power_t` that `powerFromDbm` returns. -/
inductive wifi_power_t where
  | WIFI_POWER_19_5dBm
  | WIFI_POWER_15dBm
  | WIFI_POWER_11dBm
  | WIFI_POWER_8_5dBm
deriving DecidableEq, Repr

/-- The driver's link status `wl_status_t`. -/
inductive wl_status_t where
  | WL_NO_SHIELD
  | WL_IDLE_STATUS
  | WL_NO_SSID_AVAIL
  | WL_SCAN_COMPLETED
  | WL_CONNECTED
  | WL_CONNECT_FAILED
  | WL_CONNECTION_LOST
  | WL_DISCONNECTED
deriving DecidableEq, Repr

/-- Calls made on the `WiFi` driver object, in program order; a status poll
carries the wall time at which it is made. -/
inductive DriverCall where
  | scanNetworks
  | config (local_ip gateway subnet dns1 dns2 : IPAddress)
  | begin (ssid password : String) (channel : Int)
  | setTxPower (power : wifi_power_t)
  | status (clock : Nat)
deriving DecidableEq, Repr

/-- Is this call a transmit-power change? -/
def DriverCall.isSetTxPower : DriverCall → Bool
  | .setTxPower _ => true
  | _ => false

/-- Is this call an association start? -/
def DriverCall.isBegin : DriverCall → Bool
  | .begin _ _ _ => true
  | _ => false

/-- Static helper `powerFromDbm` (lines 16-24). -/
def powerFromDbm (dbm : Int) : wifi_power_t :=
  if dbm ≥ 19 then .WIFI_POWER_19_5dBm
  else if dbm ≥ 15 then .WIFI_POWER_15dBm
  else if dbm ≥ 11 then .WIFI_POWER_11dBm
  else if dbm ≥ 8 then .WIFI_POWER_8_5dBm
  else .WIFI_POWER_8_5dBm

/-- The transmit power a step stands for, in tenths of a dBm (8.5, 11, 15 and
19.5 dBm). -/
def stepTenths : wifi_power_t → Int
  | .WIFI_POWER_19_5dBm => 195
  | .WIFI_POWER_15dBm => 150
  | .WIFI_POWER_11dBm => 110
  | .WIFI_POWER_8_5dBm => 85

/-- The specification's rounding, in its words: `p` is the greatest supported step
that does not exceed `dbm`. -/
def specRoundedDown (dbm : Int) (p : wifi_power_t) : Prop :=
  stepTenths p ≤ 10 * dbm ∧ ∀ q : wifi_power_t, stepTenths q ≤ 10 * dbm → stepTenths q ≤ stepTenths p

/-- The `for` loop of `scanAndFindChannel` over the scanned networks, each an
SSID with its channel. -/
def firstChannel (ssid : String) : List (String × Int) → Int
  | [] => -1
  | (s, ch) :: rest => if s = ssid then ch else firstChannel ssid rest

/-- Function `scanAndFindChannel` (lines 65-77); `scan` is what the driver's scan
finds (a failed scan, with a negative count, behaves as the empty list). -/
def scanAndFindChannel (scan : List (String × Int)) (ssid : String) : Int × List DriverCall :=
  (firstChannel ssid scan, [.scanNetworks])

/-- One status poll as the environment answers it: the status and the
milliseconds the iteration took on top of `delay(250)`. -/
structure Poll where
  status : wl_status_t
  took : Nat
deriving DecidableEq, Repr

/-- The polling loop of `connect` (lines 109-118). -/
def pollLoop (t0 timeout_ms : Nat) : Nat → List Poll → Option (ConnectResult × List DriverCall)
  | clock, env =>
    if sub32 (millis clock) t0 < timeout_ms then
      match env with
      | [] => none
      | p :: rest =>
        if p.status = .WL_CONNECTED then some (.Connected, [.status clock])
        else
          match pollLoop t0 timeout_ms (clock + p.took + 250) rest with
          | none => none
          | some (r, calls) => some (r, .status clock :: calls)
    else some (.Timeout, [])

/-- The driver calls of `connect` between the argument check and the polling
loop (lines 85-105). -/
def startAssociation (cfg : WifiConfig) (ssid password : String) : List DriverCall :=
  let channel := cfg.channel
  let staticIp : List DriverCall :=
    if cfg.use_static_ip then
      let dns1 := if cfg.dns1 ≠ ⟨0, 0, 0, 0⟩ then cfg.dns1 else cfg.gateway
      let dns2 := if cfg.dns2 ≠ ⟨0, 0, 0, 0⟩ then cfg.dns2 else cfg.gateway
      [.config cfg.local_ip cfg.gateway cfg.subnet dns1 dns2]
    else []
  let txPower : List DriverCall :=
    if cfg.tx_power_dbm > 0 then [.setTxPower (powerFromDbm cfg.tx_power_dbm)] else []
  staticIp ++ [.begin ssid password (if channel > 0 then channel else 0)] ++ txPower

/-- Function `connect(const WifiConfig&, uint32_t)` (lines 79-122); `clock` is the wall time at
which `t0 = millis()` is read. -/
def connect (cfg : WifiConfig) (timeout_ms : Nat) (clock : Nat) (env : List Poll) :
    Option (ConnectResult × List DriverCall) :=
  match cfg.ssid, cfg.password with
  | some ssid, some password =>
    let pre := startAssociation cfg ssid password
    let t0 := millis clock
    match pollLoop t0 timeout_ms clock env with
    | none => none
    | some (r, calls) => some (r, pre ++ calls)
  | _, _ => some (.FailedStart, [])

end WifiHandler

end ESP_32

/-! ## `src/iot-coffeemaker-main.cpp` -/

namespace Main

open ESP_32

/-- The values the sketch stores in the JSON document. -/
inductive JsonValue where
  | bool (b : Bool)
  | str (s : String)
deriving DecidableEq, Repr

/-- A JSON object as an ordered list of members (`DynamicJsonDocument`; the
byte capacity of its pool is not modelled). -/
abbrev JsonDocument := List (String × JsonValue)

/-- The assignment `doc[key] = v`: replaces the value of an existing member, adds the
member at the end otherwise. -/
def jsonSet : JsonDocument → String → JsonValue → JsonDocument
  | [], key, v => [(key, v)]
  | (k, w) :: rest, key, v =>
    if k = key then (k, v) :: rest else (k, w) :: jsonSet rest key v

/-- The member names of a document, in order. -/
def jsonKeys (doc : JsonDocument) : List String := doc.map Prod.fst

/-- Topic constant `PUBLISH_TOPIC`. -/
def PUBLISH_TOPIC : String := "State"

/-- Interval constant `PUBLISH_INTERVAL_MS`. -/
def PUBLISH_INTERVAL_MS : Nat := 500

/-- Broker constant `MQTT_BROKER_HOST`. -/
def MQTT_BROKER_HOST : String := "mqtt.i40-iaam.de"

/-- Broker constant `MQTT_BROKER_PORT`. -/
def MQTT_BROKER_PORT : Nat := 1883

/-- Broker constant `MQTT_USER`. -/
def MQTT_USER : String := "i40"

/-- Broker constant `MQTT_PASSWORD`. -/
def MQTT_PASSWORD : String := "123lalelu"

/-- What the sensor and time objects answer in one iteration, after their
`update()` calls (their code is not part of the sources; the answers are inputs). -/
structure SensorReadings where
  btnCoffeeLeft : Bool
  btnCoffeeRight : Bool
  sliderState : String
  lightLeft : String
  lightRight : String
  waterSwitch : Bool
  formattedTime : String
deriving DecidableEq, Repr

/-- Step 2 of `updateAllSensorsAndJson` (lines 89-95): the seven assignments. -/
def updateAllSensorsAndJson (jsonDoc : JsonDocument) (s : SensorReadings) : JsonDocument :=
  let d1 := jsonSet jsonDoc "ButtonCoffeeLeft" (.bool s.btnCoffeeLeft)
  let d2 := jsonSet d1 "ButtonCoffeeRight" (.bool s.btnCoffeeRight)
  let d3 := jsonSet d2 "SliderPosition" (.str s.sliderState)
  let d4 := jsonSet d3 "LightLeft" (.str s.lightLeft)
  let d5 := jsonSet d4 "LightRight" (.str s.lightRight)
  let d6 := jsonSet d5 "WaterSwitch" (.bool s.waterSwitch)
  jsonSet d6 "Timestamp" (.str s.formattedTime)

/-- The global objects the sketch mutates. -/
structure App where
  mqtt : MqttHandler
  publishWatch : Stopwatch32MS
  jsonDoc : JsonDocument
deriving DecidableEq, Repr

/-- What one run of the sketch does to the outside, in program order. -/
inductive Event where
  | wifiBegin
  | driver (d : WifiHandler.DriverCall)
  | client (c : ClientCall)
  | restartPublishWatch
  | mqttPublish (topic : String) (doc : JsonDocument)
deriving DecidableEq, Repr

/-- What the environment answers during `setup()`. -/
structure SetupEnv where
  wifiClock : Nat
  wifiPolls : List WifiHandler.Poll
  mqttClock : Nat
  mqttAttempts : List Attempt
  clock : Nat
deriving DecidableEq, Repr

/-- Function `setup()` (lines 98-139). `WIFI_SSID` and `WIFI_PWD` come from
`wifi/wifiCredentials.h` and `defaults` is `WifiConfig cfg{}`; both are parameters.
`none` when a blocking connect never returns on the given answers. -/
def setup (WIFI_SSID WIFI_PWD : String) (defaults : WifiHandler.WifiConfig)
    (app : App) (e : SetupEnv) : Option (App × List Event) :=
  let cfg : WifiHandler.WifiConfig :=
    { defaults with ssid := some WIFI_SSID, password := some WIFI_PWD,
                    scan_for_channel := true, tx_power_dbm := 8 }
  match WifiHandler.connect cfg 15000 e.wifiClock e.wifiPolls with
  | none => none
  | some (_, dcalls) =>
    match MqttHandler.connectHost app.mqtt (some MQTT_BROKER_HOST) MQTT_BROKER_PORT
        (some MQTT_USER) (some MQTT_PASSWORD) 5000 e.mqttClock e.mqttAttempts with
    | none => none
    | some (_, mqtt1, ccalls) =>
      let d1 := jsonSet app.jsonDoc "ButtonCoffeeLeft" (.bool false)
      let d2 := jsonSet d1 "ButtonCoffeeRight" (.bool false)
      let d3 := jsonSet d2 "SliderPosition" (.str "None")
      let d4 := jsonSet d3 "LightLeft" (.str "OFF")
      let d5 := jsonSet d4 "LightRight" (.str "OFF")
      let d6 := jsonSet d5 "WaterSwitch" (.bool false)
      some ({ mqtt := mqtt1, publishWatch := app.publishWatch.restart e.clock, jsonDoc := d6 },
        Event.wifiBegin :: dcalls.map Event.driver ++ ccalls.map Event.client ++
          [Event.restartPublishWatch])

/-- What the environment answers during one `loop()` iteration: the answers for
`mqtt.update()`, the sensor and time readings, the wall time at which
`publishWatch` is read, `mqtt.connected()` and the client's answer to the publish. -/
structure LoopEnv where
  mqttUpdate : MqttHandler.UpdateEnv
  sensors : SensorReadings
  clock : Nat
  connected : Bool
  publishOk : Bool
deriving DecidableEq, Repr

/-- Function `loop()` (lines 141-159). `serializeJson` is the ArduinoJson serialiser and
`DEFAULT_RETRY_WAIT_MILLIS` the constant of the handler's header. -/
def loop (serializeJson : JsonDocument → String) (DEFAULT_RETRY_WAIT_MILLIS : Nat)
    (app : App) (e : LoopEnv) : App × List Event :=
  let upd := MqttHandler.update app.mqtt DEFAULT_RETRY_WAIT_MILLIS e.mqttUpdate
  let doc := updateAllSensorsAndJson app.jsonDoc e.sensors
  if PUBLISH_INTERVAL_MS ≤ app.publishWatch.getTimeSinceStart e.clock then
    let watch := app.publishWatch.restart e.clock
    if e.connected then
      ({ mqtt := upd.1, publishWatch := watch, jsonDoc := doc },
        upd.2.map Event.client ++ [Event.restartPublishWatch, Event.mqttPublish PUBLISH_TOPIC doc] ++
          (MqttHandler.publish serializeJson e.publishOk PUBLISH_TOPIC doc).2.map Event.client)
    else
      ({ mqtt := upd.1, publishWatch := watch, jsonDoc := doc },
        upd.2.map Event.client ++ [Event.restartPublishWatch])
  else
    ({ mqtt := upd.1, publishWatch := app.publishWatch, jsonDoc := doc }, upd.2.map Event.client)

/-- Any number of `loop()` iterations, one per element of `es`; the events of all
iterations in order. -/
def loops (serializeJson : JsonDocument → String) (DEFAULT_RETRY_WAIT_MILLIS : Nat) :
    App → List LoopEnv → App × List Event
  | app, [] => (app, [])
  | app, e :: es =>
    let r := loop serializeJson DEFAULT_RETRY_WAIT_MILLIS app e
    let rs := loops serializeJson DEFAULT_RETRY_WAIT_MILLIS r.1 es
    (rs.1, r.2 ++ rs.2)

/-- The sketch's globals before `setup()`: an empty `jsonDoc`, a handler named
"IOT-Coffeemaker" with empty strings; the members without a known initial value are
parameters. -/
def initialApp (port0 : Nat) (auth0 : Bool) (connWatch0 pubWatch0 : Stopwatch32MS) : App :=
  { mqtt := { clientName := "IOT-Coffeemaker", last_host_ := "", last_port_ := port0,
              last_use_auth_ := auth0, last_user_ := "", last_pass_ := "", sub_topic := "",
              lastConnectionWatch := connWatch0 },
    publishWatch := pubWatch0,
    jsonDoc := [] }

/-- Run of the sketch: `setup()` once, then `loop()` for each element of `es`. -/
def run (serializeJson : JsonDocument → String) (DEFAULT_RETRY_WAIT_MILLIS : Nat)
    (WIFI_SSID WIFI_PWD : String) (defaults : WifiHandler.WifiConfig)
    (app : App) (se : SetupEnv) (es : List LoopEnv) : Option (App × List Event) :=
  match setup WIFI_SSID WIFI_PWD defaults app se with
  | none => none
  | some (app1, ev) =>
    let rs := loops serializeJson DEFAULT_RETRY_WAIT_MILLIS app1 es
    some (rs.1, ev ++ rs.2)

/-- The documents handed to `mqtt.publish`, in order. -/
def publishedDocs : List Event → List JsonDocument
  | [] => []
  | .mqttPublish _ doc :: rest => doc :: publishedDocs rest
  | _ :: rest => publishedDocs rest

/-- The documents handed to `mqtt.publish` during a run of `setup()` and the
`loop()` iterations `es`, in order (none when `setup()` does not return). -/
def publishedByRun (serializeJson : JsonDocument → String) (DEFAULT_RETRY_WAIT_MILLIS : Nat)
    (WIFI_SSID WIFI_PWD : String) (defaults : WifiHandler.WifiConfig)
    (app : App) (se : SetupEnv) (es : List LoopEnv) : List JsonDocument :=
  match run serializeJson DEFAULT_RETRY_WAIT_MILLIS WIFI_SSID WIFI_PWD defaults app se es with
  | none => []
  | some (_, evs) => publishedDocs evs

/-- The seven member names of the Snapshot schema. -/
def snapshotKeys : List String :=
  ["ButtonCoffeeLeft", "ButtonCoffeeRight", "SliderPosition", "LightLeft", "LightRight",
   "WaterSwitch", "Timestamp"]

end Main

end CoffeeMachine

/-! ## Theorems -/

namespace CoffeeMachine

/-! ### Arithmetic helpers -/

theorem sub32_lt (a b : Nat) : sub32 a b < U32 := by
  unfold sub32 U32
  omega

theorem sub32_millis_le (a b : Nat) (hab : a ≤ b) : sub32 (millis b) (millis a) ≤ b - a := by
  unfold sub32 millis U32
  omega

theorem sub32_millis_add (a d : Nat) (hd : d < U32) : sub32 (millis (a + d)) (millis a) = d := by
  unfold U32 at hd
  unfold sub32 millis U32
  omega

namespace Root

namespace MqttHandler

/-! ### `update()` of `src/mqtt_handler.cpp` -/

theorem tryConnectOnce_any_isConnect (h : MqttHandler) (ok : Bool) :
    (tryConnectOnce h ok).2.any ClientCall.isConnect = !(h.mode == Mode.NONE) := by
  unfold tryConnectOnce
  cases hm : h.mode <;> cases ok <;> cases hu : h.useAuth <;>
    simp [ClientCall.isConnect, alive]

theorem update_retryWaitMs (h : MqttHandler) (e : UpdateEnv) :
    (update h e).1.retryWaitMs = h.retryWaitMs := by
  unfold update
  split
  · rfl
  · simp only []
    split <;> rfl

theorem update_mode (h : MqttHandler) (e : UpdateEnv) :
    (update h e).1.mode = h.mode := by
  unfold update
  split
  · rfl
  · simp only []
    split <;> rfl

/-- An `update()` issues a connect attempt exactly when the client is
disconnected, the throttle lets it through and a configuration is cached. -/
theorem update_any_isConnect (h : MqttHandler) (e : UpdateEnv) :
    (update h e).2.any ClientCall.isConnect =
      (!e.connected && notThrottled h e && !(h.mode == Mode.NONE)) := by
  unfold update notThrottled
  by_cases hc : e.connected = true
  · simp [hc, ClientCall.isConnect]
  · by_cases ht : sub32 (millis e.clock) h.lastReconnectMs < h.retryWaitMs
    · simp [hc, ht, ClientCall.isConnect]
    · simp [hc, ht, ClientCall.isConnect, tryConnectOnce_any_isConnect]

theorem update_eq_of_no_attempt (h : MqttHandler) (e : UpdateEnv)
    (hm : h.mode ≠ Mode.NONE)
    (hno : (update h e).2.any ClientCall.isConnect = false) : (update h e).1 = h := by
  rw [update_any_isConnect] at hno
  unfold notThrottled at hno
  unfold update
  by_cases hc : e.connected = true
  · simp [hc]
  · by_cases ht : sub32 (millis e.clock) h.lastReconnectMs < h.retryWaitMs
    · simp [hc, ht]
    · simp [hc, ht, hm] at hno

theorem update_last_of_attempt (h : MqttHandler) (e : UpdateEnv)
    (hyes : (update h e).2.any ClientCall.isConnect = true) :
    (update h e).1.lastReconnectMs = millis e.clock ∧
      h.retryWaitMs ≤ sub32 (millis e.clock) h.lastReconnectMs ∧ h.mode ≠ Mode.NONE := by
  rw [update_any_isConnect] at hyes
  unfold notThrottled at hyes
  unfold update
  by_cases hc : e.connected = true
  · simp [hc] at hyes
  · by_cases ht : sub32 (millis e.clock) h.lastReconnectMs < h.retryWaitMs
    · simp [hc, ht] at hyes
    · simp [hc, ht] at hyes
      simp [hc, ht]
      exact ⟨Nat.le_of_not_lt ht, hyes⟩

theorem attemptTimes_of_NONE (es : List UpdateEnv) :
    ∀ h : MqttHandler, h.mode = Mode.NONE → attemptTimes h es = [] := by
  induction es with
  | nil => intro h _; rfl
  | cons e es ih =>
    intro h hm
    have hno : (update h e).2.any ClientCall.isConnect = false := by
      rw [update_any_isConnect]; simp [hm]
    simp only [attemptTimes, hno]
    exact ih _ (by rw [update_mode]; exact hm)

theorem attemptTimes_mem (es : List UpdateEnv) :
    ∀ (h : MqttHandler) (t : Nat), t ∈ attemptTimes h es → t ∈ es.map UpdateEnv.clock := by
  induction es with
  | nil => intro h t ht; simp [attemptTimes] at ht
  | cons e es ih =>
    intro h t ht
    simp only [attemptTimes] at ht
    split at ht
    · rcases List.mem_cons.mp ht with rfl | ht
      · simp
      · exact List.mem_cons_of_mem _ (ih _ _ ht)
    · exact List.mem_cons_of_mem _ (ih _ _ ht)

/-- Gap between successive attempts, the invariant carried along a run: `tl`
is the wall time of the last attempt. -/
theorem attemptTimes_chain (w : Nat) (es : List UpdateEnv) :
    ∀ (h : MqttHandler) (tl : Nat), h.retryWaitMs = w → h.mode ≠ Mode.NONE →
      h.lastReconnectMs = millis tl →
      (∀ t ∈ es.map UpdateEnv.clock, tl ≤ t) →
      List.Sorted (· ≤ ·) (es.map UpdateEnv.clock) →
      List.Chain (fun t1 t2 => w ≤ sub32 (millis t2) (millis t1) ∧ t1 + w ≤ t2) tl
        (attemptTimes h es) := by
  induction es with
  | nil => intro h tl _ _ _ _ _; exact List.Chain.nil
  | cons e es ih =>
    intro h tl hw hm hl hge hs
    have hs1 := hs
    simp only [List.map_cons, List.Sorted, List.pairwise_cons] at hs1
    have htl : tl ≤ e.clock := hge _ (by simp)
    by_cases ha : (update h e).2.any ClientCall.isConnect = true
    · obtain ⟨h1, h2, _⟩ := update_last_of_attempt h e ha
      simp only [attemptTimes, ha, if_true]
      refine List.Chain.cons ?_ ?_
      · rw [hl, hw] at h2
        refine ⟨h2, ?_⟩
        have := sub32_millis_le tl e.clock htl
        omega
      · exact ih _ _ (by rw [update_retryWaitMs, hw]) (by rw [update_mode]; exact hm) h1
          hs1.1 hs1.2
    · have ha2 : (update h e).2.any ClientCall.isConnect = false := by
        simpa using ha
      simp only [attemptTimes, ha2]
      rw [update_eq_of_no_attempt h e hm ha2]
      exact ih h tl hw hm hl (fun t ht => hge t (List.mem_cons_of_mem _ ht)) hs1.2

theorem attemptTimes_chain_any (es : List UpdateEnv) :
    ∀ (h : MqttHandler), List.Sorted (· ≤ ·) (es.map UpdateEnv.clock) →
      List.Chain' (fun t1 t2 =>
          h.retryWaitMs ≤ sub32 (millis t2) (millis t1) ∧ t1 + h.retryWaitMs ≤ t2)
        (attemptTimes h es) := by
  induction es with
  | nil => intro h _; simp [attemptTimes]
  | cons e es ih =>
    intro h hs
    have hs1 := hs
    simp only [List.map_cons, List.Sorted, List.pairwise_cons] at hs1
    by_cases ha : (update h e).2.any ClientCall.isConnect = true
    · obtain ⟨h1, _, hm⟩ := update_last_of_attempt h e ha
      simp only [attemptTimes, ha, if_true, List.Chain']
      exact attemptTimes_chain h.retryWaitMs es _ e.clock (update_retryWaitMs h e)
        (by rw [update_mode]; exact hm) h1 hs1.1 hs1.2
    · have ha2 : (update h e).2.any ClientCall.isConnect = false := by
        simpa using ha
      simp only [attemptTimes, ha2]
      have := ih (update h e).1 hs1.2
      rw [update_retryWaitMs] at this
      exact this

theorem spacedCalls_clock (t0 : Nat) (cf okf : Nat → Bool) :
    (spacedCalls t0 cf okf).map UpdateEnv.clock = (List.range 100).map fun k => t0 + 10 * k := by
  simp [spacedCalls, List.map_map, Function.comp_def]

theorem spacedCalls_sorted (t0 : Nat) (cf okf : Nat → Bool) :
    List.Sorted (· ≤ ·) ((spacedCalls t0 cf okf).map UpdateEnv.clock) := by
  rw [spacedCalls_clock]
  unfold List.Sorted
  rw [List.pairwise_map]
  exact (List.pairwise_lt_range 100).imp (fun hab => by omega)

theorem spacedCalls_bounds (t0 : Nat) (cf okf : Nat → Bool) (t : Nat)
    (ht : t ∈ (spacedCalls t0 cf okf).map UpdateEnv.clock) : t0 ≤ t ∧ t ≤ t0 + 990 := by
  rw [spacedCalls_clock] at ht
  obtain ⟨k, hk, rfl⟩ := List.mem_map.mp ht
  have := List.mem_range.mp hk
  omega

/-- An `update()` makes at most one `connect` call on the client: exactly one when
it issues an attempt, none otherwise. -/
theorem update_connect_times (h : MqttHandler) (e : UpdateEnv) :
    ((update h e).2.filter ClientCall.isConnect).map (fun _ => e.clock) =
      if (update h e).2.any ClientCall.isConnect then [e.clock] else [] := by
  unfold update
  by_cases hc : e.connected = true
  · simp [hc, ClientCall.isConnect]
  · by_cases ht : sub32 (millis e.clock) h.lastReconnectMs < h.retryWaitMs
    · simp [hc, ht, ClientCall.isConnect]
    · cases hm : h.mode <;> cases hu : h.useAuth <;> cases hk : e.connectOk <;>
        simp [hc, ht, tryConnectOnce, hm, hu, hk, ClientCall.isConnect, alive]

theorem update_connect_count (h : MqttHandler) (e : UpdateEnv) :
    ((update h e).2.filter ClientCall.isConnect).length ≤ 1 := by
  have := congrArg List.length (update_connect_times h e)
  rw [List.length_map] at this
  rw [this]
  split <;> simp

theorem connectAttemptTimes_eq_attemptTimes (es : List UpdateEnv) :
    ∀ h : MqttHandler, connectAttemptTimes h es = attemptTimes h es := by
  induction es with
  | nil => intro h; rfl
  | cons e es ih =>
    intro h
    simp only [connectAttemptTimes, attemptTimes, update_connect_times, ih]
    split <;> simp

theorem updatesCalls_connect_count (es : List UpdateEnv) :
    ∀ h : MqttHandler,
      ((updatesCalls h es).filter ClientCall.isConnect).length =
        (connectAttemptTimes h es).length := by
  induction es with
  | nil => intro h; rfl
  | cons e es ih =>
    intro h
    simp only [updatesCalls, connectAttemptTimes, List.filter_append, List.length_append,
      List.length_map, ih]

/-- C1. For every sequence of `update()` calls at non-decreasing wall times
(whatever the client's `connected()` and `connect` answer), any two successive
client connect attempts, taken over every `connect` call `update()` makes on the
client, are at least `retryWaitMs` apart, both as the unsigned 32-bit
difference of their `millis()` readings and in wall time; one `update()` makes
at most one connect call; and the 100 calls spaced 10 ms apart with
`retryWaitMs = 2000` make at most one client connect call in all. -/
theorem C1_update_throttles_reconnect (h : MqttHandler) (es : List UpdateEnv)
    (hmono : List.Sorted (· ≤ ·) (es.map UpdateEnv.clock)) :
    List.Chain' (fun t1 t2 =>
        h.retryWaitMs ≤ sub32 (millis t2) (millis t1) ∧ t1 + h.retryWaitMs ≤ t2)
      (connectAttemptTimes h es) ∧
    (∀ (h1 : MqttHandler) (e : UpdateEnv),
      ((update h1 e).2.filter ClientCall.isConnect).length ≤ 1) ∧
    (h.retryWaitMs = 2000 → ∀ (t0 : Nat) (cf okf : Nat → Bool),
      ((updatesCalls h (spacedCalls t0 cf okf)).filter ClientCall.isConnect).length ≤ 1) := by
  refine ⟨?_, update_connect_count, ?_⟩
  · rw [connectAttemptTimes_eq_attemptTimes]
    exact attemptTimes_chain_any es h hmono
  intro hw t0 cf okf
  rw [updatesCalls_connect_count, connectAttemptTimes_eq_attemptTimes]
  have hch := attemptTimes_chain_any (spacedCalls t0 cf okf) h (spacedCalls_sorted t0 cf okf)
  have hmem := attemptTimes_mem (spacedCalls t0 cf okf) h
  rcases hl : attemptTimes h (spacedCalls t0 cf okf) with _ | ⟨a, _ | ⟨b, rest⟩⟩
  · simp
  · simp
  · rw [hl] at hch hmem
    have hab := (List.chain'_cons.mp hch).1.2
    have ha := spacedCalls_bounds t0 cf okf a (hmem a (by simp))
    have hb := spacedCalls_bounds t0 cf okf b (hmem b (by simp))
    omega

/-- Witness for C1: three disconnected calls at 2000, 3000 and 4000 ms on a
handler configured by host; the client sees one connect at 2000 and one at
4000, two connect calls in all. -/
theorem C1_update_throttles_reconnect_witness :
    connectAttemptTimes { mode := Mode.BY_HOST } [⟨2000, false, false⟩, ⟨3000, false, false⟩,
        ⟨4000, false, true⟩] = [2000, 4000] ∧
    (updatesCalls { mode := Mode.BY_HOST } [⟨2000, false, false⟩, ⟨3000, false, false⟩,
        ⟨4000, false, true⟩]).filter ClientCall.isConnect =
      [ClientCall.connect "MyEspClient", ClientCall.connect "MyEspClient"] ∧
    List.Chain' (fun t1 t2 =>
        (2000 : Nat) ≤ sub32 (millis t2) (millis t1) ∧ t1 + 2000 ≤ t2)
      (connectAttemptTimes { mode := Mode.BY_HOST } [⟨2000, false, false⟩, ⟨3000, false, false⟩,
        ⟨4000, false, true⟩]) :=
  ⟨by decide, by decide,
   (C1_update_throttles_reconnect { mode := Mode.BY_HOST }
      [⟨2000, false, false⟩, ⟨3000, false, false⟩, ⟨4000, false, true⟩]
      (by decide)).1⟩

/-! ### `publish` of `src/mqtt_handler.cpp` -/

/-- C2. Both `publish` overloads (JSON document and raw payload): when the client
is not connected the result is `false` and no client call is made; when it is
connected the result is the client's `publish` result for the (serialised)
payload with the given retained flag, and that is the one client call made. -/
theorem C2_publish_guarded_by_connection {Doc : Type} (serializeJson : Doc → String)
    (clientPublish : String → String → Bool → Bool)
    (topic payload : String) (jsonMsg : Doc) (retained : Bool) :
    publishJson serializeJson false clientPublish topic jsonMsg retained = (false, []) ∧
    publish false clientPublish topic payload retained = (false, []) ∧
    publishJson serializeJson true clientPublish topic jsonMsg retained =
      (clientPublish topic (serializeJson jsonMsg) retained,
        [ClientCall.publish topic (serializeJson jsonMsg) retained]) ∧
    publish true clientPublish topic payload retained =
      (clientPublish topic payload retained, [ClientCall.publish topic payload retained]) := by
  simp [publishJson, publish]

/-! ### `connect` of `src/mqtt_handler.cpp` followed by `update()` -/

theorem connectIpLoop_zero (name : String) (clock : Nat) (env : List Attempt) :
    connectIpLoop name (millis clock) 0 clock env = some (false, []) := by
  unfold connectIpLoop
  simp

theorem connectHostLoop_zero (h : MqttHandler) (clock : Nat) (env : List Attempt) :
    connectHostLoop h (millis clock) 0 clock env = some (false, []) := by
  unfold connectHostLoop
  simp

/-- C3. For both connect shapes and every timeout: after `connect` returns
`false` the cache holds the parameters of that call (by IP: mode `BY_IP`, the
address, the port, no auth, empty user and password; by host: mode `BY_HOST`,
the host, the port, auth exactly when both credentials were given, and then
those credentials), and an `update()` that finds the client disconnected and
is not throttled makes exactly one connect attempt, after pointing the client
at that broker, with that auth choice. -/
theorem C3_failed_connect_keeps_config (h h' : MqttHandler) (ip : IPAddress)
    (host username password : Option String) (port timeoutMillis clock : Nat)
    (env : List Attempt) (calls : List ClientCall) (e : UpdateEnv)
    (hdis : e.connected = false) (hthr : notThrottled h' e = true) :
    (connect h ip port timeoutMillis clock env = some (false, h', calls) →
      h'.mode = Mode.BY_IP ∧ h'.brokerIp = ip ∧ h'.brokerPort = port ∧
      h'.useAuth = false ∧ h'.user = "" ∧ h'.pass = "" ∧
      (update h' e).2 =
        [ClientCall.loop, ClientCall.setServerIp ip port, ClientCall.connect h.clientName] ++
          (if e.connectOk then [alive] else []) ∧
      (update h' e).2.filter ClientCall.isConnect = [ClientCall.connect h.clientName]) ∧
    (connectHost h host port username password timeoutMillis clock env = some (false, h', calls) →
      h'.mode = Mode.BY_HOST ∧ h'.brokerHost = host.getD "" ∧ h'.brokerPort = port ∧
      h'.useAuth = (username.isSome && password.isSome) ∧
      (∀ u p, username = some u → password = some p → h'.user = u ∧ h'.pass = p ∧
        (update h' e).2 =
          [ClientCall.loop, ClientCall.setServerHost (some (host.getD "")) port,
            ClientCall.connectAuth h.clientName u p] ++ (if e.connectOk then [alive] else []) ∧
        (update h' e).2.filter ClientCall.isConnect =
          [ClientCall.connectAuth h.clientName u p]) ∧
      (username = none ∨ password = none → h'.user = "" ∧ h'.pass = "" ∧
        (update h' e).2 =
          [ClientCall.loop, ClientCall.setServerHost (some (host.getD "")) port,
            ClientCall.connect h.clientName] ++ (if e.connectOk then [alive] else []) ∧
        (update h' e).2.filter ClientCall.isConnect = [ClientCall.connect h.clientName])) := by
  have hthr' : ¬ sub32 (millis e.clock) h'.lastReconnectMs < h'.retryWaitMs := by
    simpa [notThrottled] using hthr
  constructor
  · intro hc
    unfold connect at hc
    simp only [] at hc
    split at hc
    · simp at hc
    · rename_i r calls' _
      simp only [Option.some.injEq, Prod.mk.injEq] at hc
      obtain ⟨_, hh, _⟩ := hc
      subst hh
      refine ⟨rfl, rfl, rfl, rfl, rfl, rfl, ?_, ?_⟩
      · simp only [update, hdis, hthr']
        cases e.connectOk <;> simp [tryConnectOnce]
      · simp only [update, hdis, hthr']
        cases e.connectOk <;> simp [tryConnectOnce, ClientCall.isConnect, alive]
  · intro hc
    unfold connectHost at hc
    simp only [] at hc
    split at hc
    · simp at hc
    · rename_i r calls' _
      simp only [Option.some.injEq, Prod.mk.injEq] at hc
      obtain ⟨_, hh, _⟩ := hc
      subst hh
      refine ⟨rfl, rfl, rfl, rfl, ?_, ?_⟩
      · intro u p hu hp
        subst hu hp
        refine ⟨by simp, by simp, ?_, ?_⟩
        · simp only [update, hdis, hthr']
          cases e.connectOk <;> simp [tryConnectOnce]
        · simp only [update, hdis, hthr']
          cases e.connectOk <;> simp [tryConnectOnce, ClientCall.isConnect, alive]
      · intro hnone
        have hfalse : (username.isSome && password.isSome) = false := by
          rcases hnone with hn | hn <;> simp [hn]
        refine ⟨by simp [hfalse], by simp [hfalse], ?_, ?_⟩
        · simp only [update, hdis, hthr']
          cases e.connectOk <;> simp [tryConnectOnce, hfalse]
        · simp only [update, hdis, hthr']
          cases e.connectOk <;> simp [tryConnectOnce, hfalse, ClientCall.isConnect, alive]

/-- Witness for C3: a by-host connect with credentials and a 150 ms timeout whose
two attempts fail returns `false`; an `update()` at 5 s then reconnects with the
same credentials. A by-IP connect with a zero timeout returns `false` at once. -/
theorem C3_failed_connect_keeps_config_witness :
    connectHost {} (some "broker") 1883 (some "u") (some "p") 150 0 [⟨false, 0⟩, ⟨false, 0⟩] =
      some (false,
        { mode := Mode.BY_HOST, brokerHost := "broker", useAuth := true, user := "u", pass := "p" },
        [ClientCall.setServerHost (some "broker") 1883,
          ClientCall.connectAuth "MyEspClient" "u" "p",
          ClientCall.connectAuth "MyEspClient" "u" "p"]) ∧
    connect {} ⟨10, 0, 0, 7⟩ 1883 0 0 [] =
      some (false, { mode := Mode.BY_IP, brokerIp := ⟨10, 0, 0, 7⟩ },
        [ClientCall.setServerIp ⟨10, 0, 0, 7⟩ 1883]) ∧
    (update { mode := Mode.BY_HOST, brokerHost := "broker", useAuth := true, user := "u",
              pass := "p" } ⟨5000, false, true⟩).2.filter ClientCall.isConnect =
      [ClientCall.connectAuth "MyEspClient" "u" "p"] :=
  ⟨by decide, by decide,
   (((C3_failed_connect_keeps_config {}
      { mode := Mode.BY_HOST, brokerHost := "broker", useAuth := true, user := "u", pass := "p" }
      ⟨10, 0, 0, 7⟩ (some "broker") (some "u") (some "p") 1883 150 0
      [⟨false, 0⟩, ⟨false, 0⟩]
      [ClientCall.setServerHost (some "broker") 1883,
        ClientCall.connectAuth "MyEspClient" "u" "p",
        ClientCall.connectAuth "MyEspClient" "u" "p"]
      ⟨5000, false, true⟩ rfl (by decide)).2 (by decide)).2.2.2.2.1 "u" "p" rfl rfl).2.2.2⟩

end MqttHandler

end Root

namespace ESP_32

namespace MqttHandler

/-! ### `src/ESP_32/src/mqtt/mqtt_handler.cpp` -/

/-- A by-IP `connect` that gives up leaves every member as it was: the cache is
written only after the loop was left by `break`. -/
theorem connect_false_unchanged (h h' : MqttHandler) (ip : IPAddress)
    (port timeoutMillis clock : Nat) (env : List Attempt) (calls : List ClientCall)
    (hc : connect h ip port timeoutMillis clock env = some (false, h', calls)) : h' = h := by
  unfold connect at hc
  simp only [] at hc
  split at hc
  · simp at hc
  · simp only [Option.some.injEq, Prod.mk.injEq] at hc
    exact hc.2.1.symm
  · simp at hc

/-- A by-host `connect` that gives up has cached host, port and credentials. -/
theorem connectHost_false_cached (h h' : MqttHandler) (host username password : Option String)
    (port timeoutMillis clock : Nat) (env : List Attempt) (calls : List ClientCall)
    (hc : connectHost h host port username password timeoutMillis clock env =
      some (false, h', calls)) :
    h'.last_host_ = host.getD "" ∧ h'.last_port_ = port ∧
      h'.last_use_auth_ = (username.isSome && password.isSome) := by
  unfold connectHost at hc
  simp only [] at hc
  split at hc
  · simp at hc
  · simp only [Option.some.injEq, Prod.mk.injEq] at hc
    obtain ⟨_, hh, _⟩ := hc
    subst hh
    exact ⟨rfl, rfl, rfl⟩
  · simp at hc

/-- C4 (evaluation at the failing input). On a handler with an empty cache, the
by-IP `connect` to 192.168.178.21:1883 with a 100 ms timeout and a failing
client returns `false` and leaves `last_host_` empty and `last_port_` 0, so the
later `update()` (client disconnected, retry wait elapsed, a connect that
would succeed) makes no client call at all; the by-host `connect` with the
same broker and answers caches host and port, and the same `update()` then
issues a connect attempt. -/
theorem C4_by_ip_timeout_drops_broker :
    connect ⟨"IOT-Coffeemaker", "", 0, false, "", "", "", ⟨0⟩⟩ ⟨192, 168, 178, 21⟩ 1883 100 0
        [⟨false, 100⟩] =
      some (false, ⟨"IOT-Coffeemaker", "", 0, false, "", "", "", ⟨0⟩⟩,
        [ClientCall.setServerIp ⟨192, 168, 178, 21⟩ 1883, ClientCall.setCallback,
          ClientCall.setKeepAlive 30, ClientCall.setSocketTimeout 3,
          ClientCall.connect "IOT-Coffeemaker"]) ∧
    (update ⟨"IOT-Coffeemaker", "", 0, false, "", "", "", ⟨0⟩⟩ 2000 ⟨5000, false, true, 0⟩).2 = [] ∧
    connectHost ⟨"IOT-Coffeemaker", "", 0, false, "", "", "", ⟨0⟩⟩ (some "192.168.178.21") 1883
        none none 100 0 [⟨false, 100⟩] =
      some (false, ⟨"IOT-Coffeemaker", "192.168.178.21", 1883, false, "", "", "", ⟨0⟩⟩,
        [ClientCall.setServerHost (some "192.168.178.21") 1883,
          ClientCall.connect "IOT-Coffeemaker"]) ∧
    (update ⟨"IOT-Coffeemaker", "192.168.178.21", 1883, false, "", "", "", ⟨0⟩⟩ 2000
        ⟨5000, false, true, 0⟩).2 =
      [ClientCall.setServerHost (some "192.168.178.21") 1883,
        ClientCall.connect "IOT-Coffeemaker", alive, ClientCall.loop] := by
  refine ⟨by decide, by decide, by decide, by decide⟩

/-- C5. Whenever `update()` makes a reconnect attempt (client disconnected, retry
wait elapsed, a host and a port cached): if the attempt succeeds the client
calls after it are the publish of "i am alive" to "esp_state", then the
subscribe to the cached topic exactly when that topic is not empty, then
`loop`; if it fails nothing follows the attempt, so nothing is published or
subscribed. `update()` leaves the cached topic as it is, and `subscribe(topic)`
stores the topic and returns the client's answer, whatever that answer is. -/
theorem C5_reconnect_announces_and_resubscribes (h : MqttHandler)
    (DEFAULT_RETRY_WAIT_MILLIS : Nat) (e : UpdateEnv) (topic : Option String)
    (clientSubscribe : Bool)
    (hdis : e.connected = false)
    (hwait : DEFAULT_RETRY_WAIT_MILLIS ≤ h.lastConnectionWatch.getTimeSinceStart e.clock)
    (hhost : h.last_host_ ≠ "") (hport : 0 < h.last_port_) :
    (e.connectOk = true →
      (update h DEFAULT_RETRY_WAIT_MILLIS e).2 =
        [ClientCall.setServerHost (some h.last_host_) h.last_port_, connectCall h,
          ClientCall.publish "esp_state" "i am alive" false] ++
        (if h.sub_topic ≠ "" then [ClientCall.subscribe (some h.sub_topic)] else []) ++
        [ClientCall.loop]) ∧
    (e.connectOk = false →
      (update h DEFAULT_RETRY_WAIT_MILLIS e).2 =
        [ClientCall.setServerHost (some h.last_host_) h.last_port_, connectCall h]) ∧
    (update h DEFAULT_RETRY_WAIT_MILLIS e).1.sub_topic = h.sub_topic ∧
    (subscribe h topic clientSubscribe).2.1.sub_topic = topic.getD "" ∧
    (subscribe h topic clientSubscribe).1 = clientSubscribe ∧
    (subscribe h topic clientSubscribe).2.2 = [ClientCall.subscribe topic] := by
  refine ⟨?_, ?_, ?_, rfl, rfl, rfl⟩
  · intro hok
    by_cases hs : h.sub_topic = "" <;>
      simp [update, hdis, hwait, hhost, hport, hok, hs, alive]
  · intro hok
    simp [update, hdis, hwait, hhost, hport, hok]
  · cases hok : e.connectOk <;> simp [update, hdis, hwait, hhost, hport, hok]

/-- Witness for C5: a handler that has the broker cached and "cmd" as its topic,
at 5 s with a retry wait of 2 s and a connect that succeeds. -/
theorem C5_reconnect_announces_and_resubscribes_witness :
    (update ⟨"esp", "broker", 1883, false, "", "", "cmd", ⟨0⟩⟩ 2000 ⟨5000, false, true, 0⟩).2 =
      [ClientCall.setServerHost (some "broker") 1883, ClientCall.connect "esp",
        ClientCall.publish "esp_state" "i am alive" false,
        ClientCall.subscribe (some "cmd"), ClientCall.loop] :=
  (C5_reconnect_announces_and_resubscribes ⟨"esp", "broker", 1883, false, "", "", "cmd", ⟨0⟩⟩
    2000 ⟨5000, false, true, 0⟩ (some "cmd") true rfl (by decide) (by decide) (by decide)).1 rfl

end MqttHandler

end ESP_32

namespace Main

open ESP_32

/-! ### `loop()` of `src/iot-coffeemaker-main.cpp` -/

theorem publishedDocs_append (l₁ l₂ : List Event) :
    publishedDocs (l₁ ++ l₂) = publishedDocs l₁ ++ publishedDocs l₂ := by
  induction l₁ with
  | nil => rfl
  | cons ev l ih => cases ev <;> simp [publishedDocs, ih]

theorem publishedDocs_client (l : List ClientCall) :
    publishedDocs (l.map Event.client) = [] := by
  induction l with
  | nil => rfl
  | cons c l ih => simpa [publishedDocs] using ih

theorem publishedDocs_driver (l : List WifiHandler.DriverCall) :
    publishedDocs (l.map Event.driver) = [] := by
  induction l with
  | nil => rfl
  | cons c l ih => simpa [publishedDocs] using ih

/-- The documents one iteration hands to `mqtt.publish`. -/
theorem loop_publishedDocs (serializeJson : JsonDocument → String)
    (DEFAULT_RETRY_WAIT_MILLIS : Nat) (app : App) (e : LoopEnv) :
    publishedDocs (loop serializeJson DEFAULT_RETRY_WAIT_MILLIS app e).2 =
      (if 500 ≤ app.publishWatch.getTimeSinceStart e.clock ∧ e.connected = true then
        [updateAllSensorsAndJson app.jsonDoc e.sensors] else []) := by
  by_cases ht : 500 ≤ app.publishWatch.getTimeSinceStart e.clock
  · cases hc : e.connected
    · simp [loop, PUBLISH_INTERVAL_MS, ht, hc, publishedDocs_append, publishedDocs_client,
        publishedDocs]
    · simp [loop, PUBLISH_INTERVAL_MS, ht, hc, publishedDocs_append, publishedDocs_client,
        publishedDocs, MqttHandler.publish]
  · simp [loop, PUBLISH_INTERVAL_MS, ht, publishedDocs_client]

end Main

namespace Main

open ESP_32

/-! ### The published document of `src/iot-coffeemaker-main.cpp` -/

theorem jsonKeys_jsonSet (doc : JsonDocument) (key : String) (v : JsonValue) :
    jsonKeys (jsonSet doc key v) =
      if key ∈ jsonKeys doc then jsonKeys doc else jsonKeys doc ++ [key] := by
  induction doc with
  | nil => simp [jsonSet, jsonKeys]
  | cons m rest ih =>
    obtain ⟨k, w⟩ := m
    unfold jsonKeys at ih
    by_cases hk : k = key
    · simp [jsonSet, jsonKeys, hk]
    · have hk' : ¬ key = k := fun h => hk h.symm
      by_cases hm : key ∈ List.map Prod.fst rest
      · simp only [jsonSet, jsonKeys, hk, if_false, List.map_cons, ih, hm, if_true,
          List.mem_cons, or_true]
      · simp only [jsonSet, jsonKeys, hk, if_false, List.map_cons, ih, hm,
          List.mem_cons, hk', or_self, List.cons_append]

/-- The six assignments of `setup()` on the empty document give six members. -/
theorem setup_keys (ssid pwd : String) (defaults : WifiHandler.WifiConfig) (app app1 : App)
    (se : SetupEnv) (ev : List Event) (hdoc : app.jsonDoc = [])
    (hs : setup ssid pwd defaults app se = some (app1, ev)) :
    jsonKeys app1.jsonDoc =
        ["ButtonCoffeeLeft", "ButtonCoffeeRight", "SliderPosition", "LightLeft", "LightRight",
          "WaterSwitch"] ∧
      publishedDocs ev = [] := by
  unfold setup at hs
  simp only [] at hs
  split at hs
  · simp at hs
  · split at hs
    · simp at hs
    · simp only [Option.some.injEq, Prod.mk.injEq] at hs
      obtain ⟨h1, h2⟩ := hs
      subst h1 h2
      refine ⟨?_, ?_⟩
      · simp [hdoc, jsonSet, jsonKeys]
      · simp [publishedDocs_append, publishedDocs_client, publishedDocs_driver, publishedDocs]

/-- The seven assignments of `updateAllSensorsAndJson` complete the six members of
`setup()` and keep a complete document complete. -/
theorem updateAllSensorsAndJson_keys (doc : JsonDocument) (s : SensorReadings)
    (h : jsonKeys doc =
        ["ButtonCoffeeLeft", "ButtonCoffeeRight", "SliderPosition", "LightLeft", "LightRight",
          "WaterSwitch"] ∨ jsonKeys doc = snapshotKeys) :
    jsonKeys (updateAllSensorsAndJson doc s) = snapshotKeys := by
  rcases h with h | h <;>
    simp [updateAllSensorsAndJson, jsonKeys_jsonSet, h, snapshotKeys]

theorem loop_jsonDoc (ser : JsonDocument → String) (R : Nat) (app : App) (e : LoopEnv) :
    (loop ser R app e).1.jsonDoc = updateAllSensorsAndJson app.jsonDoc e.sensors := by
  unfold loop
  simp only []
  split
  · split <;> rfl
  · rfl

theorem loops_published_keys (ser : JsonDocument → String) (R : Nat) (es : List LoopEnv) :
    ∀ app : App,
      (jsonKeys app.jsonDoc =
          ["ButtonCoffeeLeft", "ButtonCoffeeRight", "SliderPosition", "LightLeft", "LightRight",
            "WaterSwitch"] ∨ jsonKeys app.jsonDoc = snapshotKeys) →
      ∀ doc ∈ publishedDocs (loops ser R app es).2, jsonKeys doc = snapshotKeys := by
  induction es with
  | nil => intro app _ doc hd; simp [loops, publishedDocs] at hd
  | cons e es ih =>
    intro app hk doc hd
    simp only [loops, publishedDocs_append, List.mem_append] at hd
    rcases hd with hd | hd
    · rw [(loop_publishedDocs ser R app e)] at hd
      split at hd
      · simp only [List.mem_singleton] at hd
        rw [hd]
        exact updateAllSensorsAndJson_keys _ _ hk
      · simp at hd
    · refine ih _ ?_ doc hd
      right
      rw [loop_jsonDoc]
      exact updateAllSensorsAndJson_keys _ _ hk

/-- C7. For every run of `setup()` followed by any number of `loop()` iterations,
from the sketch's initial globals and for every sensor and time reading, every
document handed to `mqtt.publish` has exactly the seven members
ButtonCoffeeLeft, ButtonCoffeeRight, SliderPosition, LightLeft, LightRight,
WaterSwitch and Timestamp, in this order. -/
theorem C7_published_snapshot_has_all_keys (serializeJson : JsonDocument → String)
    (DEFAULT_RETRY_WAIT_MILLIS : Nat) (WIFI_SSID WIFI_PWD : String)
    (defaults : WifiHandler.WifiConfig) (port0 : Nat) (auth0 : Bool)
    (connWatch0 pubWatch0 : Stopwatch32MS) (se : SetupEnv) (es : List LoopEnv)
    (doc : JsonDocument)
    (hdoc : doc ∈ publishedByRun serializeJson DEFAULT_RETRY_WAIT_MILLIS WIFI_SSID WIFI_PWD
      defaults (initialApp port0 auth0 connWatch0 pubWatch0) se es) :
    jsonKeys doc =
      ["ButtonCoffeeLeft", "ButtonCoffeeRight", "SliderPosition", "LightLeft", "LightRight",
        "WaterSwitch", "Timestamp"] := by
  unfold publishedByRun run at hdoc
  split at hdoc
  · simp at hdoc
  · rename_i app evs hrun
    split at hrun
    · simp at hrun
    · rename_i app1 ev hs
      simp only [Option.some.injEq, Prod.mk.injEq] at hrun
      obtain ⟨_, hev⟩ := hrun
      subst hev
      obtain ⟨hk, hnone⟩ := setup_keys _ _ _ _ _ _ _ rfl hs
      rw [publishedDocs_append, hnone, List.nil_append] at hdoc
      exact loops_published_keys serializeJson DEFAULT_RETRY_WAIT_MILLIS es app1 (Or.inl hk) doc hdoc

/-- Witness for C7: WiFi and broker connect at once, and the first iteration, 580 ms
after `setup()` and with no time synchronised, publishes a document that has
the Timestamp member, empty. -/
theorem C7_published_snapshot_has_all_keys_witness :
    jsonKeys [("ButtonCoffeeLeft", JsonValue.bool false), ("ButtonCoffeeRight", JsonValue.bool true),
        ("SliderPosition", JsonValue.str "Left"), ("LightLeft", JsonValue.str "ON"),
        ("LightRight", JsonValue.str "BLINK"), ("WaterSwitch", JsonValue.bool true),
        ("Timestamp", JsonValue.str "")] =
      ["ButtonCoffeeLeft", "ButtonCoffeeRight", "SliderPosition", "LightLeft", "LightRight",
        "WaterSwitch", "Timestamp"] :=
  C7_published_snapshot_has_all_keys (fun _ => "") 2000 "net" "pw"
    { ssid := none, password := none } 0 false ⟨0⟩ ⟨0⟩
    ⟨0, [⟨WifiHandler.wl_status_t.WL_CONNECTED, 0⟩], 10, [⟨true, 0⟩], 20⟩
    [⟨⟨600, true, false, 0⟩, ⟨false, true, "Left", "ON", "BLINK", true, ""⟩, 600, true, true⟩]
    _ (by decide)

end Main

namespace ESP_32

namespace WifiHandler

/-! ### `connect` of `src/ESP_32/src/wifi/wifi_handler.cpp` -/

/-- The polling loop ends with `Connected` or `Timeout`, and polls the status
only. -/
theorem pollLoop_spec (t0 timeout_ms : Nat) (env : List Poll) :
    ∀ (clock : Nat) (r : ConnectResult) (calls : List DriverCall),
      pollLoop t0 timeout_ms clock env = some (r, calls) →
      r ≠ ConnectResult.FailedStart ∧ calls.filter DriverCall.isSetTxPower = [] ∧
        calls.filter DriverCall.isBegin = [] ∧ DriverCall.scanNetworks ∉ calls := by
  induction env with
  | nil =>
    intro clock r calls hp
    unfold pollLoop at hp
    split at hp
    · simp at hp
    · simp only [Option.some.injEq, Prod.mk.injEq] at hp
      obtain ⟨h1, h2⟩ := hp
      subst h1 h2
      simp
  | cons p rest ih =>
    intro clock r calls hp
    unfold pollLoop at hp
    split at hp
    · simp only [] at hp
      split at hp
      · simp only [Option.some.injEq, Prod.mk.injEq] at hp
        obtain ⟨h1, h2⟩ := hp
        subst h1 h2
        simp [DriverCall.isSetTxPower, DriverCall.isBegin]
      · split at hp
        · simp at hp
        · rename_i r' calls' hrec
          simp only [Option.some.injEq, Prod.mk.injEq] at hp
          obtain ⟨h1, h2⟩ := hp
          subst h1 h2
          obtain ⟨i1, i2, i3, i4⟩ := ih _ _ _ hrec
          refine ⟨i1, ?_, ?_, ?_⟩
          · simpa [List.filter_cons, DriverCall.isSetTxPower] using i2
          · simpa [List.filter_cons, DriverCall.isBegin] using i3
          · simpa using i4
    · simp only [Option.some.injEq, Prod.mk.injEq] at hp
      obtain ⟨h1, h2⟩ := hp
      subst h1 h2
      simp

/-- With both credentials present, a `connect` that returns has made the calls of
`startAssociation` and then those of the polling loop. -/
theorem connect_present (cfg : WifiConfig) (ssid password : String)
    (timeout_ms clock : Nat) (env : List Poll) (r : ConnectResult) (calls : List DriverCall)
    (hs : cfg.ssid = some ssid) (hp : cfg.password = some password)
    (hrun : connect cfg timeout_ms clock env = some (r, calls)) :
    ∃ polls, pollLoop (millis clock) timeout_ms clock env = some (r, polls) ∧
      calls = startAssociation cfg ssid password ++ polls := by
  unfold connect at hrun
  rw [hs, hp] at hrun
  simp only [] at hrun
  split at hrun
  · simp at hrun
  · rename_i r' polls hrec
    simp only [Option.some.injEq, Prod.mk.injEq] at hrun
    exact ⟨polls, by rw [hrec, hrun.1], hrun.2.symm⟩

/-- C8. `connect` returns `FailedStart` if and only if `cfg.ssid` or `cfg.password` is
absent, for every timeout, clock, status sequence and other configuration
field; and in that case it returns without any driver call. -/
theorem C8_failed_start_iff_credentials_absent (cfg : WifiConfig) (timeout_ms clock : Nat)
    (env : List Poll) :
    ((∃ calls, connect cfg timeout_ms clock env = some (ConnectResult.FailedStart, calls)) ↔
      (cfg.ssid = none ∨ cfg.password = none)) ∧
    ((cfg.ssid = none ∨ cfg.password = none) →
      connect cfg timeout_ms clock env = some (ConnectResult.FailedStart, [])) := by
  have hfail : (cfg.ssid = none ∨ cfg.password = none) →
      connect cfg timeout_ms clock env = some (ConnectResult.FailedStart, []) := by
    intro h
    unfold connect
    rcases h with h | h
    · rw [h]
    · rw [h]
      cases cfg.ssid <;> rfl
  refine ⟨⟨?_, fun h => ⟨[], hfail h⟩⟩, hfail⟩
  rintro ⟨calls, hc⟩
  cases hs : cfg.ssid with
  | none => exact Or.inl rfl
  | some ssid =>
    cases hp : cfg.password with
    | none => exact Or.inr rfl
    | some password =>
      obtain ⟨polls, hpoll, _⟩ := connect_present cfg ssid password _ _ _ _ _ hs hp hc
      exact absurd rfl (pollLoop_spec _ _ _ _ _ _ hpoll).1

/-- Witness for C8: a configuration without SSID fails to start, with no driver
call. -/
theorem C8_failed_start_iff_credentials_absent_witness :
    connect { ssid := none, password := some "pw" } 15000 0 [⟨wl_status_t.WL_CONNECTED, 0⟩] =
      some (ConnectResult.FailedStart, []) :=
  (C8_failed_start_iff_credentials_absent { ssid := none, password := some "pw" } 15000 0
    [⟨wl_status_t.WL_CONNECTED, 0⟩]).2 (Or.inl rfl)

/-- C9 as stated fails: with `tx_power_dbm = 19` the step handed to the driver is
19.5 dBm, which exceeds 19 dBm, so it is not 19 rounded down to a supported
step. -/
theorem C9_step_exceeds_requested_power :
    connect { ssid := some "net", password := some "pw", tx_power_dbm := 19 } 0 0 [] =
      some (ConnectResult.Timeout,
        [DriverCall.config ⟨192, 168, 178, 50⟩ ⟨192, 168, 178, 1⟩ ⟨255, 255, 255, 0⟩
            ⟨8, 8, 8, 8⟩ ⟨1, 1, 1, 1⟩,
          DriverCall.begin "net" "pw" 1,
          DriverCall.setTxPower wifi_power_t.WIFI_POWER_19_5dBm]) ∧
    ¬ specRoundedDown 19 wifi_power_t.WIFI_POWER_19_5dBm := by
  refine ⟨by decide, ?_⟩
  intro h
  have := h.1
  simp [stepTenths] at this

/-- C9 (amended). For every configuration with SSID and password present, a
`connect` that returns has set the transmit power exactly once, to
`powerFromDbm tx_power_dbm`, when `tx_power_dbm > 0`, and not at all when
`tx_power_dbm <= 0`. The step is chosen by the integer thresholds 19, 15 and 11:
19.5 dBm from 19 on, 15 dBm for 15..18, 11 dBm for 11..14 and 8.5 dBm below 11;
it is the greatest supported step not exceeding the request for every request
of at least 9 dBm other than 19. -/
theorem C9_tx_power_by_thresholds (cfg : WifiConfig) (ssid password : String)
    (timeout_ms clock : Nat) (env : List Poll) (r : ConnectResult) (calls : List DriverCall)
    (hs : cfg.ssid = some ssid) (hp : cfg.password = some password)
    (hrun : connect cfg timeout_ms clock env = some (r, calls)) :
    calls.filter DriverCall.isSetTxPower =
      (if cfg.tx_power_dbm > 0 then [DriverCall.setTxPower (powerFromDbm cfg.tx_power_dbm)]
       else []) ∧
    (∀ d : Int,
      (19 ≤ d → powerFromDbm d = wifi_power_t.WIFI_POWER_19_5dBm) ∧
      (15 ≤ d → d < 19 → powerFromDbm d = wifi_power_t.WIFI_POWER_15dBm) ∧
      (11 ≤ d → d < 15 → powerFromDbm d = wifi_power_t.WIFI_POWER_11dBm) ∧
      (d < 11 → powerFromDbm d = wifi_power_t.WIFI_POWER_8_5dBm) ∧
      (9 ≤ d → d ≠ 19 → specRoundedDown d (powerFromDbm d))) := by
  obtain ⟨polls, hpoll, hcalls⟩ := connect_present cfg ssid password _ _ _ _ _ hs hp hrun
  have hnone := (pollLoop_spec _ _ _ _ _ _ hpoll).2.1
  refine ⟨?_, ?_⟩
  · subst hcalls
    rw [List.filter_append, hnone, List.append_nil]
    unfold startAssociation
    by_cases hpos : cfg.tx_power_dbm > 0 <;> by_cases hst : cfg.use_static_ip = true <;>
      simp [hpos, hst, List.filter_cons, DriverCall.isSetTxPower]
  · intro d
    refine ⟨?_, ?_, ?_, ?_, ?_⟩
    · intro h1
      simp [powerFromDbm, h1]
    · intro h1 h2
      have : ¬ 19 ≤ d := by omega
      simp [powerFromDbm, h1, this]
    · intro h1 h2
      have : ¬ 19 ≤ d := by omega
      have : ¬ 15 ≤ d := by omega
      simp [powerFromDbm, h1, *]
    · intro h1
      have : ¬ 19 ≤ d := by omega
      have : ¬ 15 ≤ d := by omega
      have : ¬ 11 ≤ d := by omega
      simp [powerFromDbm, *]
    · intro h1 h2
      unfold specRoundedDown powerFromDbm
      by_cases c1 : d ≥ 19
      · simp only [c1, if_true]
        refine ⟨by simp only [stepTenths]; omega, fun q _ => by cases q <;> simp [stepTenths]⟩
      · by_cases c2 : d ≥ 15
        · simp only [c1, c2, if_true, if_false]
          refine ⟨by simp only [stepTenths]; omega, fun q hq => ?_⟩
          cases q <;> simp only [stepTenths] at hq ⊢ <;> omega
        · by_cases c3 : d ≥ 11
          · simp only [c1, c2, c3, if_true, if_false]
            refine ⟨by simp only [stepTenths]; omega, fun q hq => ?_⟩
            cases q <;> simp only [stepTenths] at hq ⊢ <;> omega
          · have c4 : d ≥ 8 := by omega
            simp only [c1, c2, c3, c4, if_true, if_false]
            refine ⟨by simp only [stepTenths]; omega, fun q hq => ?_⟩
            cases q <;> simp only [stepTenths] at hq ⊢ <;> omega

/-- Witness for C9: the sketch's request of 8 dBm, connected at the first poll,
sets 8.5 dBm after the association was started. -/
theorem C9_tx_power_by_thresholds_witness :
    connect { ssid := some "net", password := some "pw", tx_power_dbm := 8 } 15000 0
        [⟨wl_status_t.WL_CONNECTED, 0⟩] =
      some (ConnectResult.Connected,
        [DriverCall.config ⟨192, 168, 178, 50⟩ ⟨192, 168, 178, 1⟩ ⟨255, 255, 255, 0⟩
            ⟨8, 8, 8, 8⟩ ⟨1, 1, 1, 1⟩,
          DriverCall.begin "net" "pw" 1,
          DriverCall.setTxPower wifi_power_t.WIFI_POWER_8_5dBm, DriverCall.status 0]) ∧
    [DriverCall.config ⟨192, 168, 178, 50⟩ ⟨192, 168, 178, 1⟩ ⟨255, 255, 255, 0⟩
        ⟨8, 8, 8, 8⟩ ⟨1, 1, 1, 1⟩,
      DriverCall.begin "net" "pw" 1,
      DriverCall.setTxPower wifi_power_t.WIFI_POWER_8_5dBm,
      DriverCall.status 0].filter DriverCall.isSetTxPower =
      [DriverCall.setTxPower wifi_power_t.WIFI_POWER_8_5dBm] :=
  ⟨by decide,
   (C9_tx_power_by_thresholds { ssid := some "net", password := some "pw", tx_power_dbm := 8 }
      "net" "pw" 15000 0 [⟨wl_status_t.WL_CONNECTED, 0⟩] ConnectResult.Connected _ rfl rfl
      (by decide)).1⟩

/-- C10 (evaluation at the failing input). With `scan_for_channel` set, `cfg.channel = 1`
and the network "net" on channel 6 (which `scanAndFindChannel` would return),
`connect` makes no scan and starts the association on channel 1; in general
`connect` does the same whatever `scan_for_channel` is. -/
theorem C10_connect_ignores_scan_flag :
    (scanAndFindChannel [("other", 3), ("net", 6)] "net").1 = 6 ∧
    connect { ssid := some "net", password := some "pw", channel := 1,
              scan_for_channel := true } 0 0 [] =
      some (ConnectResult.Timeout,
        [DriverCall.config ⟨192, 168, 178, 50⟩ ⟨192, 168, 178, 1⟩ ⟨255, 255, 255, 0⟩
            ⟨8, 8, 8, 8⟩ ⟨1, 1, 1, 1⟩,
          DriverCall.begin "net" "pw" 1,
          DriverCall.setTxPower wifi_power_t.WIFI_POWER_8_5dBm]) ∧
    (∀ (cfg : WifiConfig) (timeout_ms clock : Nat) (env : List Poll),
      connect { cfg with scan_for_channel := true } timeout_ms clock env =
        connect { cfg with scan_for_channel := false } timeout_ms clock env) := by
  refine ⟨by decide, by decide, ?_⟩
  intro cfg timeout_ms clock env
  rfl

/-! ### The polling loop of `connect` -/

end WifiHandler

end ESP_32

namespace Root

namespace MqttHandler

/-! ### Credentials of the by-host `connect` of `src/mqtt_handler.cpp` -/

/-- The retry loop of the by-host `connect` makes no client call other than the
connect call chosen by `useAuth` and the liveness publish. -/
theorem connectHostLoop_calls (h : MqttHandler) (start timeoutMillis : Nat)
    (env : List Attempt) :
    ∀ (clock : Nat) (r : Bool) (calls : List ClientCall),
      connectHostLoop h start timeoutMillis clock env = some (r, calls) →
      ∀ c ∈ calls, c = hostConnectCall h ∨ c = alive := by
  induction env with
  | nil =>
    intro clock r calls hl
    unfold connectHostLoop at hl
    split at hl
    · simp at hl
    · simp only [Option.some.injEq, Prod.mk.injEq] at hl
      obtain ⟨_, h2⟩ := hl
      subst h2
      simp
  | cons a rest ih =>
    intro clock r calls hl
    unfold connectHostLoop at hl
    split at hl
    · simp only [] at hl
      split at hl
      · simp only [Option.some.injEq, Prod.mk.injEq] at hl
        obtain ⟨_, h2⟩ := hl
        subst h2
        simp
      · split at hl
        · simp at hl
        · rename_i r' calls' hrec
          simp only [Option.some.injEq, Prod.mk.injEq] at hl
          obtain ⟨_, h2⟩ := hl
          subst h2
          intro c hc
          rcases List.mem_cons.mp hc with hc | hc
          · exact Or.inl hc
          · exact ih _ _ _ hrec c hc
    · simp only [Option.some.injEq, Prod.mk.injEq] at hl
      obtain ⟨_, h2⟩ := hl
      subst h2
      simp

theorem update_hostConnectCall (h : MqttHandler) (e : UpdateEnv) :
    hostConnectCall (update h e).1 = hostConnectCall h := by
  unfold update
  split
  · rfl
  · simp only []
    split <;> rfl

/-- On a handler configured by host, every connect attempt of `update()` is the
connect call chosen by `useAuth`. -/
theorem update_calls_host (h : MqttHandler) (e : UpdateEnv) (hm : h.mode = Mode.BY_HOST) :
    ∀ c ∈ (update h e).2, c.isConnect = true → c = hostConnectCall h := by
  unfold update
  by_cases hc : e.connected = true
  · simp [hc, ClientCall.isConnect]
  · by_cases ht : sub32 (millis e.clock) h.lastReconnectMs < h.retryWaitMs
    · simp [hc, ht, ClientCall.isConnect]
    · cases hu : h.useAuth <;> cases hk : e.connectOk <;>
        simp [hc, ht, tryConnectOnce, hostConnectCall, hm, hu, hk, ClientCall.isConnect, alive]

theorem updatesCalls_host (es : List UpdateEnv) :
    ∀ h : MqttHandler, h.mode = Mode.BY_HOST →
      ∀ c ∈ updatesCalls h es, c.isConnect = true → c = hostConnectCall h := by
  induction es with
  | nil => intro h _ c hc; simp [updatesCalls] at hc
  | cons e es ih =>
    intro h hm c hc hi
    simp only [updatesCalls, List.mem_append] at hc
    rcases hc with hc | hc
    · exact update_calls_host h e hm c hc hi
    · have := ih (update h e).1 (by rw [update_mode]; exact hm) c hc hi
      rw [update_hostConnectCall] at this
      exact this

/-- C12. For a by-host `connect` that returns (with either result), followed by any
sequence of `update()` calls: if both `username` and `password` are non-null,
auth is cached with exactly these credentials and every connect attempt of
the call and of the later `update()`s is made with them; if either is null,
no auth is cached, the cached user and password are empty and every such
attempt is made without credentials. -/
theorem C12_credentials_iff_both_given (h h' : MqttHandler) (host username password : Option String)
    (port timeoutMillis clock : Nat) (env : List Attempt) (r : Bool) (calls : List ClientCall)
    (es : List UpdateEnv)
    (hrun : connectHost h host port username password timeoutMillis clock env =
      some (r, h', calls)) :
    (∀ u p, username = some u → password = some p →
      h'.useAuth = true ∧ h'.user = u ∧ h'.pass = p ∧
      ∀ c ∈ calls ++ updatesCalls h' es, c.isConnect = true →
        c = ClientCall.connectAuth h.clientName u p) ∧
    (username = none ∨ password = none →
      h'.useAuth = false ∧ h'.user = "" ∧ h'.pass = "" ∧
      ∀ c ∈ calls ++ updatesCalls h' es, c.isConnect = true →
        c = ClientCall.connect h.clientName) := by
  unfold connectHost at hrun
  simp only [] at hrun
  split at hrun
  · simp at hrun
  · rename_i r' calls' hloop
    simp only [Option.some.injEq, Prod.mk.injEq] at hrun
    obtain ⟨_, hh, hcalls⟩ := hrun
    have hloopcalls := connectHostLoop_calls _ _ _ _ _ _ _ hloop
    have hmode : h'.mode = Mode.BY_HOST := by rw [← hh]
    have hupd := updatesCalls_host es h' hmode
    have hall : ∀ c ∈ calls ++ updatesCalls h' es, c.isConnect = true →
        c = hostConnectCall h' := by
      intro c hc hi
      rcases List.mem_append.mp hc with hc | hc
      · rw [← hcalls] at hc
        rcases List.mem_cons.mp hc with hc | hc
        · subst hc
          simp [ClientCall.isConnect] at hi
        · rcases hloopcalls c hc with hc | hc
          · rw [hc, hh]
          · subst hc
            simp [ClientCall.isConnect, alive] at hi
      · exact hupd c hc hi
    constructor
    · intro u p hu hp
      subst hu hp
      have h1 : h'.useAuth = true := by rw [← hh]; rfl
      have h2 : h'.user = u := by rw [← hh]; rfl
      have h3 : h'.pass = p := by rw [← hh]; rfl
      have h4 : h'.clientName = h.clientName := by rw [← hh]
      refine ⟨h1, h2, h3, ?_⟩
      intro c hc hi
      rw [hall c hc hi]
      simp [hostConnectCall, h1, h2, h3, h4]
    · intro hnone
      have hfalse : (username.isSome && password.isSome) = false := by
        rcases hnone with hn | hn <;> simp [hn]
      have h1 : h'.useAuth = false := by rw [← hh]; exact hfalse
      have h2 : h'.user = "" := by rw [← hh]; simp [hfalse]
      have h3 : h'.pass = "" := by rw [← hh]; simp [hfalse]
      have h4 : h'.clientName = h.clientName := by rw [← hh]
      refine ⟨h1, h2, h3, ?_⟩
      intro c hc hi
      rw [hall c hc hi]
      simp [hostConnectCall, h1, h4]

/-- Witness for C12: a by-host connect with both credentials whose second attempt
succeeds, then an `update()` at 5 s on a lost connection: all three connect
attempts carry "u" and "p", and these are what the handler has cached. -/
theorem C12_credentials_iff_both_given_witness :
    connectHost {} (some "broker") 1883 (some "u") (some "p") 150 0 [⟨false, 0⟩, ⟨true, 0⟩] =
      some (true,
        { mode := Mode.BY_HOST, brokerHost := "broker", useAuth := true, user := "u", pass := "p" },
        [ClientCall.setServerHost (some "broker") 1883,
          ClientCall.connectAuth "MyEspClient" "u" "p",
          ClientCall.connectAuth "MyEspClient" "u" "p",
          ClientCall.publish "esp_state" "i am alive" false]) ∧
    updatesCalls { mode := Mode.BY_HOST, brokerHost := "broker", useAuth := true, user := "u",
                   pass := "p" } [⟨5000, false, true⟩] =
      [ClientCall.loop, ClientCall.setServerHost (some "broker") 1883,
        ClientCall.connectAuth "MyEspClient" "u" "p",
        ClientCall.publish "esp_state" "i am alive" false] ∧
    (({ mode := Mode.BY_HOST, brokerHost := "broker", useAuth := true, user := "u",
        pass := "p" } : MqttHandler).useAuth = true ∧
      ({ mode := Mode.BY_HOST, brokerHost := "broker", useAuth := true, user := "u",
         pass := "p" } : MqttHandler).user = "u" ∧
      ({ mode := Mode.BY_HOST, brokerHost := "broker", useAuth := true, user := "u",
         pass := "p" } : MqttHandler).pass = "p") :=
  ⟨by decide, by decide,
   ⟨((C12_credentials_iff_both_given {}
        { mode := Mode.BY_HOST, brokerHost := "broker", useAuth := true, user := "u", pass := "p" }
        (some "broker") (some "u") (some "p") 1883 150 0 [⟨false, 0⟩, ⟨true, 0⟩] true
        [ClientCall.setServerHost (some "broker") 1883,
          ClientCall.connectAuth "MyEspClient" "u" "p",
          ClientCall.connectAuth "MyEspClient" "u" "p",
          ClientCall.publish "esp_state" "i am alive" false]
        [⟨5000, false, true⟩] (by decide)).1 "u" "p" rfl rfl).1,
    rfl, rfl⟩⟩

end MqttHandler

end Root

end CoffeeMachine
